import Mathlib

/-!
Verification of the frame-decoding core of a network sniffer: the Ethernet,
IPv4 and IPv6 header decoders and the shared control-field data model.
Buffers are modelled as lists of natural numbers standing for bytes, and
slice indexing as total access with default 0; the safety theorems establish
that every offset the accessors touch is in bounds for successfully parsed
inputs, so the default is never observable there.
-/

deriving instance DecidableEq for Except

namespace Sniffer

/-- Byte access into a buffer, modelling Rust slice indexing `data[i]`.
Total with default 0; the parse preconditions keep all real accesses in
bounds (see the safety theorems). -/
def byteAt (data : List Nat) (i : Nat) : Nat :=
  data.getD i 0

/-- Lowercase hexadecimal rendering of a number, as Rust's `x` format
specifier produces (no padding, `0` for zero). -/
def hexStr (n : Nat) : String :=
  String.mk (Nat.toDigits 16 n)

/-- Left-pad a string with zeros to the given width, as Rust's `04x`-style
format specifiers do. -/
def zeroPad (width : Nat) (s : String) : String :=
  String.mk (List.replicate (width - s.length) '0') ++ s

/-- A single decoded control field: models `ControlField` in
`frame_control.rs` (name, pre-formatted display value, description). -/
structure ControlField where
  name : String
  value : String
  description : String
deriving Repr, DecidableEq

/-- Protocol-layer tag: models `ProtocolType` in `frame_control.rs`. -/
inductive ProtocolType where
  | Ethernet
  | WiFi
  | IPv4
  | IPv6
  | TCP
  | UDP
  | Other (name : String)
deriving Repr, DecidableEq

/-- Result of decoding one frame: models `FrameControlInfo` in
`frame_control.rs`. -/
structure FrameControlInfo where
  protocol_type : ProtocolType
  control_fields : List ControlField
deriving Repr, DecidableEq

/-- Dotted-decimal rendering of four octets, as the `Display` of Rust's
`Ipv4Addr` produces for `Ipv4Addr::new(a, b, c, d)`. -/
def ipv4AddrToString (a b c d : Nat) : String :=
  Nat.repr a ++ "." ++ Nat.repr b ++ "." ++ Nat.repr c ++ "." ++ Nat.repr d

/-- Errors of the IPv4 decoder: models `IPv4Error` in `ipv4.rs`. -/
inductive IPv4Error where
  | TooShort
  | InvalidVersion
  | InvalidHeaderLength
deriving Repr, DecidableEq

/-- A parsed IPv4 packet: a view over the raw buffer, models `IPv4Packet`
in `ipv4.rs`. -/
structure IPv4Packet where
  data : List Nat
deriving Repr, DecidableEq

/-- Models `IPv4Packet::parse` in `ipv4.rs`: reject buffers under 20 bytes,
a version nibble other than 4, and an IHL nibble under 5. -/
def IPv4Packet.parse (data : List Nat) : Except IPv4Error IPv4Packet :=
  if data.length < 20 then
    .error .TooShort
  else
    let version := (byteAt data 0 &&& 0xF0) >>> 4
    if version ≠ 4 then
      .error .InvalidVersion
    else
      let ihl := byteAt data 0 &&& 0x0F
      if ihl < 5 then
        .error .InvalidHeaderLength
      else
        .ok ⟨data⟩

/-- Models `IPv4Packet::version`. -/
def IPv4Packet.version (p : IPv4Packet) : Nat :=
  (byteAt p.data 0 &&& 0xF0) >>> 4

/-- Models `IPv4Packet::header_length` (IHL nibble times 4, in bytes). -/
def IPv4Packet.header_length (p : IPv4Packet) : Nat :=
  (byteAt p.data 0 &&& 0x0F) * 4

/-- Models `IPv4Packet::dscp`. -/
def IPv4Packet.dscp (p : IPv4Packet) : Nat :=
  (byteAt p.data 1 &&& 0xFC) >>> 2

/-- Models `IPv4Packet::ecn`. -/
def IPv4Packet.ecn (p : IPv4Packet) : Nat :=
  byteAt p.data 1 &&& 0x03

/-- Models `IPv4Packet::total_length` (big-endian bytes 2-3). -/
def IPv4Packet.total_length (p : IPv4Packet) : Nat :=
  (byteAt p.data 2 <<< 8) ||| byteAt p.data 3

/-- Models `IPv4Packet::identification` (big-endian bytes 4-5). -/
def IPv4Packet.identification (p : IPv4Packet) : Nat :=
  (byteAt p.data 4 <<< 8) ||| byteAt p.data 5

/-- Models `IPv4Packet::flags` (top 3 bits of byte 6). -/
def IPv4Packet.flags (p : IPv4Packet) : Nat :=
  (byteAt p.data 6 &&& 0xE0) >>> 5

/-- Models `IPv4Packet::fragment_offset` (13 bits over bytes 6-7). -/
def IPv4Packet.fragment_offset (p : IPv4Packet) : Nat :=
  ((byteAt p.data 6 &&& 0x1F) <<< 8) ||| byteAt p.data 7

/-- Models `IPv4Packet::ttl` (byte 8). -/
def IPv4Packet.ttl (p : IPv4Packet) : Nat :=
  byteAt p.data 8

/-- Models `IPv4Packet::protocol` (byte 9). -/
def IPv4Packet.protocol (p : IPv4Packet) : Nat :=
  byteAt p.data 9

/-- Models `IPv4Packet::checksum` (big-endian bytes 10-11). -/
def IPv4Packet.checksum (p : IPv4Packet) : Nat :=
  (byteAt p.data 10 <<< 8) ||| byteAt p.data 11

/-- Models `IPv4Packet::source_ip` rendered through `Ipv4Addr`'s display
(bytes 12-15). -/
def IPv4Packet.source_ip (p : IPv4Packet) : String :=
  ipv4AddrToString (byteAt p.data 12) (byteAt p.data 13)
    (byteAt p.data 14) (byteAt p.data 15)

/-- Models `IPv4Packet::destination_ip` rendered through `Ipv4Addr`'s
display (bytes 16-19). -/
def IPv4Packet.destination_ip (p : IPv4Packet) : String :=
  ipv4AddrToString (byteAt p.data 16) (byteAt p.data 17)
    (byteAt p.data 18) (byteAt p.data 19)

/-- Models `IPv4Packet::get_protocol_name`: closed protocol-number table. -/
def IPv4Packet.get_protocol_name (p : IPv4Packet) : String :=
  match p.protocol with
  | 1 => "ICMP"
  | 2 => "IGMP"
  | 6 => "TCP"
  | 17 => "UDP"
  | n => "Unknown (" ++ Nat.repr n ++ ")"

/-- Body of `IPv4Packet::get_flags_description`, as a function of the
flags value it binds locally: test bits 0, 1, 2, join with a comma,
default to None. -/
def flagsDescription (flags : Nat) : String :=
  let desc : List String :=
    (if flags &&& 0x01 ≠ 0 then ["More Fragments"] else []) ++
    (if flags &&& 0x02 ≠ 0 then ["Don\x27t Fragment"] else []) ++
    (if flags &&& 0x04 ≠ 0 then ["Reserved"] else [])
  if desc.isEmpty then "None" else String.intercalate ", " desc

/-- Models `IPv4Packet::get_flags_description`. -/
def IPv4Packet.get_flags_description (p : IPv4Packet) : String :=
  flagsDescription p.flags

/-- Models `IPv4Packet::get_control_fields`: the fixed field list built
from the accessors, in header order. -/
def IPv4Packet.get_control_fields (p : IPv4Packet) : List ControlField :=
  [ ⟨"IP Version", Nat.repr p.version, "Internet Protocol version"⟩,
    ⟨"Header Length", Nat.repr p.header_length, "IP header length in bytes"⟩,
    ⟨"DSCP", Nat.repr p.dscp, "Differentiated Services Code Point"⟩,
    ⟨"ECN", Nat.repr p.ecn, "Explicit Congestion Notification"⟩,
    ⟨"Total Length", Nat.repr p.total_length, "Total packet length in bytes"⟩,
    ⟨"Identification", "0x" ++ zeroPad 4 (hexStr p.identification),
      "Packet identification for fragmentation"⟩,
    ⟨"Flags", "0x" ++ zeroPad 2 (hexStr p.flags), p.get_flags_description⟩,
    ⟨"Fragment Offset", Nat.repr p.fragment_offset,
      "Fragment offset in 8-byte units"⟩,
    ⟨"TTL", Nat.repr p.ttl, "Time to Live"⟩,
    ⟨"Protocol", Nat.repr p.protocol, p.get_protocol_name⟩,
    ⟨"Checksum", "0x" ++ zeroPad 4 (hexStr p.checksum), "Header checksum"⟩,
    ⟨"Source IP", p.source_ip, "Source IP address"⟩,
    ⟨"Destination IP", p.destination_ip, "Destination IP address"⟩ ]

/-- Errors of the IPv6 decoder: models `IPv6Error` in `ipv6.rs`. -/
inductive IPv6Error where
  | TooShort
  | InvalidVersion
deriving Repr, DecidableEq

/-- A parsed IPv6 packet: a view over the raw buffer, models `IPv6Packet`
in `ipv6.rs`. -/
structure IPv6Packet where
  data : List Nat
deriving Repr, DecidableEq

/-- Models `IPv6Packet::parse` in `ipv6.rs`: reject buffers under 40 bytes
and a version nibble other than 6. -/
def IPv6Packet.parse (data : List Nat) : Except IPv6Error IPv6Packet :=
  if data.length < 40 then
    .error .TooShort
  else
    let version := (byteAt data 0 &&& 0xF0) >>> 4
    if version ≠ 6 then
      .error .InvalidVersion
    else
      .ok ⟨data⟩

/-- Models `IPv6Packet::version`. -/
def IPv6Packet.version (p : IPv6Packet) : Nat :=
  (byteAt p.data 0 &&& 0xF0) >>> 4

/-- Models `IPv6Packet::traffic_class` (low nibble of byte 0 with the top
nibble of byte 1). -/
def IPv6Packet.traffic_class (p : IPv6Packet) : Nat :=
  ((byteAt p.data 0 &&& 0x0F) <<< 4) ||| ((byteAt p.data 1 &&& 0xF0) >>> 4)

/-- Models `IPv6Packet::flow_label` (low nibble of byte 1 and bytes 2-3). -/
def IPv6Packet.flow_label (p : IPv6Packet) : Nat :=
  ((byteAt p.data 1 &&& 0x0F) <<< 16) |||
    (byteAt p.data 2 <<< 8) ||| byteAt p.data 3

/-- Models `IPv6Packet::payload_length` (big-endian bytes 4-5). -/
def IPv6Packet.payload_length (p : IPv6Packet) : Nat :=
  (byteAt p.data 4 <<< 8) ||| byteAt p.data 5

/-- Models `IPv6Packet::next_header` (byte 6). -/
def IPv6Packet.next_header (p : IPv6Packet) : Nat :=
  byteAt p.data 6

/-- Models `IPv6Packet::hop_limit` (byte 7). -/
def IPv6Packet.hop_limit (p : IPv6Packet) : Nat :=
  byteAt p.data 7

/-- The eight 16-bit big-endian segments of a 16-byte IPv6 address, as
Rust's `Ipv6Addr::segments` computes them. -/
def ipv6Segments (bytes : List Nat) : List Nat :=
  [ (byteAt bytes 0 <<< 8) ||| byteAt bytes 1,
    (byteAt bytes 2 <<< 8) ||| byteAt bytes 3,
    (byteAt bytes 4 <<< 8) ||| byteAt bytes 5,
    (byteAt bytes 6 <<< 8) ||| byteAt bytes 7,
    (byteAt bytes 8 <<< 8) ||| byteAt bytes 9,
    (byteAt bytes 10 <<< 8) ||| byteAt bytes 11,
    (byteAt bytes 12 <<< 8) ||| byteAt bytes 13,
    (byteAt bytes 14 <<< 8) ||| byteAt bytes 15 ]

/-- Longest run of zero segments (start, length), scanning left to right
and keeping the first strictly-longest run, as the span search in the
`Display` of Rust's `Ipv6Addr` does. The second and third arguments carry
the current index and the best and current spans. -/
def zeroRunAux : List Nat → Nat → Nat × Nat → Nat × Nat → Nat × Nat
  | [], _, best, _ => best
  | s :: rest, i, (bs, bl), (cs, cl) =>
    if s = 0 then
      let cs' := if cl = 0 then i else cs
      let cl' := cl + 1
      let best' := if cl' > bl then (cs', cl') else (bs, bl)
      zeroRunAux rest (i + 1) best' (cs', cl')
    else
      zeroRunAux rest (i + 1) (bs, bl) (0, 0)

/-- Rendering of one address segment, lowercase hex without padding. -/
def segToHex (n : Nat) : String :=
  hexStr n

/-- Rendering of a 16-byte IPv6 address: models the `Display` of Rust's
`Ipv6Addr` (shorthand for the unspecified and loopback addresses, the
IPv4-mapped form, and compression of the longest zero run when it spans
more than one segment). -/
def ipv6AddrToString (bytes : List Nat) : String :=
  let segs := ipv6Segments bytes
  if segs.all (· = 0) then
    "::"
  else if segs = [0, 0, 0, 0, 0, 0, 0, 1] then
    "::1"
  else if (segs.take 5).all (· = 0) ∧ segs.getD 5 0 = 0xFFFF then
    "::ffff:" ++
      ipv4AddrToString (byteAt bytes 12) (byteAt bytes 13)
        (byteAt bytes 14) (byteAt bytes 15)
  else
    let run := zeroRunAux segs 0 (0, 0) (0, 0)
    if run.2 > 1 then
      String.intercalate ":" ((segs.take run.1).map segToHex) ++ "::" ++
        String.intercalate ":" ((segs.drop (run.1 + run.2)).map segToHex)
    else
      String.intercalate ":" (segs.map segToHex)

/-- Models `IPv6Packet::source_ip` rendered through `Ipv6Addr`'s display
(bytes 8-23). -/
def IPv6Packet.source_ip (p : IPv6Packet) : String :=
  ipv6AddrToString ((p.data.drop 8).take 16)

/-- Models `IPv6Packet::destination_ip` rendered through `Ipv6Addr`'s
display (bytes 24-39). -/
def IPv6Packet.destination_ip (p : IPv6Packet) : String :=
  ipv6AddrToString ((p.data.drop 24).take 16)

/-- Models `IPv6Packet::get_next_header_name`: closed next-header table. -/
def IPv6Packet.get_next_header_name (p : IPv6Packet) : String :=
  match p.next_header with
  | 0 => "Hop-by-Hop Options"
  | 1 => "ICMP"
  | 6 => "TCP"
  | 17 => "UDP"
  | 43 => "Routing"
  | 44 => "Fragment"
  | 50 => "ESP"
  | 51 => "AH"
  | 58 => "ICMPv6"
  | 59 => "No Next Header"
  | 60 => "Destination Options"
  | n => "Unknown (" ++ Nat.repr n ++ ")"

/-- Models `IPv6Packet::get_control_fields`: the fixed field list built
from the accessors, in header order. -/
def IPv6Packet.get_control_fields (p : IPv6Packet) : List ControlField :=
  [ ⟨"IP Version", Nat.repr p.version, "Internet Protocol version"⟩,
    ⟨"Traffic Class", "0x" ++ zeroPad 2 (hexStr p.traffic_class),
      "Traffic class field"⟩,
    ⟨"Flow Label", "0x" ++ zeroPad 5 (hexStr p.flow_label),
      "Flow label field"⟩,
    ⟨"Payload Length", Nat.repr p.payload_length,
      "Length of the payload in bytes"⟩,
    ⟨"Next Header", Nat.repr p.next_header, p.get_next_header_name⟩,
    ⟨"Hop Limit", Nat.repr p.hop_limit, "Hop limit (similar to IPv4 TTL)"⟩,
    ⟨"Source IP", p.source_ip, "Source IPv6 address"⟩,
    ⟨"Destination IP", p.destination_ip, "Destination IPv6 address"⟩ ]

/-- Errors of the Ethernet decoder: models `EthernetError` in
`ethernet.rs`. -/
inductive EthernetError where
  | TooShort
  | InvalidFormat
deriving Repr, DecidableEq

/-- A parsed Ethernet frame: a view over the raw buffer, models
`EthernetFrame` in `ethernet.rs`. -/
structure EthernetFrame where
  data : List Nat
deriving Repr, DecidableEq

/-- Models `EthernetFrame::parse` in `ethernet.rs`: reject buffers under
14 bytes, accept everything else. -/
def EthernetFrame.parse (data : List Nat) : Except EthernetError EthernetFrame :=
  if data.length < 14 then
    .error .TooShort
  else
    .ok ⟨data⟩

/-- Colon-separated lowercase hex rendering of six octets, as the
`Display` of `MacAddress` in `ethernet.rs` produces. -/
def macToString (bytes : List Nat) : String :=
  String.intercalate ":" (bytes.map (fun b => zeroPad 2 (hexStr b)))

/-- Models `EthernetFrame::dest_mac` (bytes 0-5). -/
def EthernetFrame.dest_mac (f : EthernetFrame) : List Nat :=
  f.data.take 6

/-- Models `EthernetFrame::src_mac` (bytes 6-11). -/
def EthernetFrame.src_mac (f : EthernetFrame) : List Nat :=
  (f.data.drop 6).take 6

/-- Models `EthernetFrame::ether_type` (big-endian bytes 12-13). -/
def EthernetFrame.ether_type (f : EthernetFrame) : Nat :=
  (byteAt f.data 12 <<< 8) ||| byteAt f.data 13

/-- Models `EthernetFrame::payload` (bytes 14 onward). -/
def EthernetFrame.payload (f : EthernetFrame) : List Nat :=
  f.data.drop 14

/-- Rendering of an EtherType value, as the `Display` of `EtherType` in
`ethernet.rs` produces. -/
def etherTypeToString (t : Nat) : String :=
  "0x" ++ zeroPad 4 (hexStr t)

/-- Models `EtherType::get_protocol_description`: closed EtherType
table. -/
def etherTypeDescription (t : Nat) : String :=
  match t with
  | 0x0800 => "IPv4"
  | 0x0806 => "ARP"
  | 0x86DD => "IPv6"
  | 0x8100 => "VLAN"
  | 0x88CC => "LLDP"
  | n => "Unknown (" ++ etherTypeToString n ++ ")"

/-- The three Ethernet-layer control fields built at the start of
`EthernetFrame::get_frame_control` (ethernet.rs lines 77-93). -/
def EthernetFrame.baseControlFields (f : EthernetFrame) : List ControlField :=
  [ ⟨"Source MAC", macToString f.src_mac, "Source hardware address"⟩,
    ⟨"Destination MAC", macToString f.dest_mac,
      "Destination hardware address"⟩,
    ⟨"EtherType", etherTypeToString f.ether_type,
      etherTypeDescription f.ether_type⟩ ]

/-- Models `EthernetFrame::get_frame_control`: the three Ethernet fields,
then dispatch on the EtherType, appending the inner decoder's fields on
success and omitting them on failure. -/
def EthernetFrame.get_frame_control (f : EthernetFrame) : FrameControlInfo :=
  let inner : List ControlField :=
    match f.ether_type with
    | 0x0800 =>
      match IPv4Packet.parse f.payload with
      | .ok p => p.get_control_fields
      | .error _ => []
    | 0x86DD =>
      match IPv6Packet.parse f.payload with
      | .ok p => p.get_control_fields
      | .error _ => []
    | _ => []
  ⟨ProtocolType.Ethernet, f.baseControlFields ++ inner⟩

/-- Minimal 20-byte IPv4 header: version 4, IHL 5, all other bytes zero. -/
def ipv4Min : List Nat :=
  0x45 :: List.replicate 19 0

/-- A 20-byte buffer whose first byte declares IHL 4. -/
def ipv4Ihl4 : List Nat :=
  0x44 :: List.replicate 19 0

/-- A 20-byte buffer whose first byte declares version 5. -/
def ipv4Ver5 : List Nat :=
  0x55 :: List.replicate 19 0

/-- A 20-byte buffer whose IHL nibble declares a 60-byte header. -/
def ipv4Ihl15 : List Nat :=
  0x4F :: List.replicate 19 0

/-- A 20-byte IPv4 header whose flags byte sets flag bits 0 and 1
(flags value 3). -/
def ipv4Flags3 : List Nat :=
  [0x45, 0, 0, 20, 0, 0, 0x60, 0, 64, 6, 0, 0, 192, 168, 0, 1, 10, 0, 0, 7]

/-- A 14-byte Ethernet header with EtherType 0x0800 (IPv4). -/
def ethIpv4Hdr : List Nat :=
  [0, 1, 2, 3, 4, 5, 6, 7, 8, 9, 10, 11, 0x08, 0x00]

/-- The Ethernet header with EtherType 0x0800 followed by a minimal IPv4
header. -/
def ethIpv4Buf : List Nat :=
  ethIpv4Hdr ++ ipv4Min

/-- A 14-byte frame with EtherType 0x0806 (ARP): no inner decoder runs. -/
def ethArpHdr : List Nat :=
  [0, 1, 2, 3, 4, 5, 6, 7, 8, 9, 10, 11, 0x08, 0x06]

/-- A 14-byte frame with EtherType 0x86DD (IPv6) and an empty payload. -/
def ethIpv6Hdr : List Nat :=
  [0, 1, 2, 3, 4, 5, 6, 7, 8, 9, 10, 11, 0x86, 0xDD]

/-- Minimal 40-byte IPv6 header: version 6, all other bytes zero. -/
def ipv6Min : List Nat :=
  0x60 :: List.replicate 39 0

/-- A 20-byte IPv4 header whose flags byte sets only flag bit 1
(flags value 2, the Don\x27t Fragment bit). -/
def ipv4Flags2 : List Nat :=
  [0x45, 0, 0, 20, 0, 0, 0x40, 0, 64, 6, 0, 0, 1, 2, 3, 4, 5, 6, 7, 8]

/-- A 40-byte IPv6 header with non-trivial nibbles in its first four
bytes (version 6, traffic class 0x12, flow label 0x34567). -/
def ipv6Nib : List Nat :=
  [0x61, 0x23, 0x45, 0x67] ++ List.replicate 36 0

/-- Byte access below the truncation point agrees with the whole buffer. -/
theorem byteAt_take (l : List Nat) (n i : Nat) (h : i < n) :
    byteAt (l.take n) i = byteAt l i := by
  unfold byteAt
  rw [List.getD_eq_getElem?_getD, List.getD_eq_getElem?_getD,
    List.getElem?_take]
  simp [h]

/-- Byte access inside the left part of an append reads the left part. -/
theorem byteAt_append_left (l r : List Nat) (i : Nat) (h : i < l.length) :
    byteAt (l ++ r) i = byteAt l i := by
  unfold byteAt
  rw [List.getD_eq_getElem?_getD, List.getD_eq_getElem?_getD,
    List.getElem?_append]
  simp [h]

/-- Buffers that agree on their first n bytes agree at every offset below
n. -/
theorem byteAt_congr_of_take (d d' : List Nat) (n i : Nat)
    (h : d.take n = d'.take n) (hi : i < n) : byteAt d i = byteAt d' i := by
  rw [← byteAt_take d n i hi, h, byteAt_take d' n i hi]

/-- Bytes of a byte buffer are below 256, as is the out-of-range
default. -/
theorem byteAt_lt_256 (l : List Nat) (hb : ∀ b ∈ l, b < 256) (i : Nat) :
    byteAt l i < 256 := by
  unfold byteAt
  rcases Nat.lt_or_ge i l.length with h | h
  · rw [List.getD_eq_getElem l 0 h]
    exact hb _ (List.getElem_mem h)
  · rw [List.getD_eq_getElem?_getD, List.getElem?_eq_none h]
    norm_num

/-- A window of b bytes at offset a is determined by the first a + b
bytes. -/
theorem take_drop_window (l : List Nat) (a b n : Nat) (hab : a + b ≤ n) :
    ((l.take n).drop a).take b = (l.drop a).take b := by
  rw [List.drop_take, List.take_take]
  congr 1
  omega

/-- Masking with 15 keeps the low nibble. -/
theorem and_fifteen (x : Nat) : x &&& 15 = x % 16 := by
  have h := Nat.and_pow_two_sub_one_eq_mod x 4
  norm_num at h
  exact h

/-- Right shift by 4 divides by 16. -/
theorem shiftRight_four (x : Nat) : x >>> 4 = x / 16 := by
  rw [Nat.shiftRight_eq_div_pow]

/-- A left shift or-ed with a small enough number is plain addition. -/
theorem shiftLeft_lor_eq_add (k x y : Nat) (hy : y < 2 ^ k) :
    (x <<< k) ||| y = x * 2 ^ k + y := by
  rw [Nat.shiftLeft_eq, Nat.mul_comm, ← Nat.mul_add_lt_is_or hy x]

/-- Shift-by-4 variant of `shiftLeft_lor_eq_add` with literal bounds. -/
theorem shiftLeft4_lor (x y : Nat) (hy : y < 16) :
    (x <<< 4) ||| y = x * 16 + y := by
  have h := shiftLeft_lor_eq_add 4 x y (lt_of_lt_of_le hy (by norm_num))
  norm_num at h
  exact h

/-- Shift-by-8 variant of `shiftLeft_lor_eq_add` with literal bounds. -/
theorem shiftLeft8_lor (x y : Nat) (hy : y < 256) :
    (x <<< 8) ||| y = x * 256 + y := by
  have h := shiftLeft_lor_eq_add 8 x y (lt_of_lt_of_le hy (by norm_num))
  norm_num at h
  exact h

/-- Shift-by-16 variant of `shiftLeft_lor_eq_add` with literal bounds. -/
theorem shiftLeft16_lor (x y : Nat) (hy : y < 65536) :
    (x <<< 16) ||| y = x * 65536 + y := by
  have h := shiftLeft_lor_eq_add 16 x y (lt_of_lt_of_le hy (by norm_num))
  norm_num at h
  exact h

/-- Masking with 240 then shifting right by 4 equals shifting first and
masking with 15. -/
theorem and_240_shiftRight (b : Nat) :
    (b &&& 240) >>> 4 = (b >>> 4) &&& 15 := by
  apply Nat.eq_of_testBit_eq
  intro j
  simp only [Nat.testBit_shiftRight, Nat.testBit_and]
  congr 1
  rcases Nat.lt_or_ge j 4 with hj | hj
  · interval_cases j <;> decide
  · have e1 : (240 : Nat) < 2 ^ (4 + j) :=
      lt_of_lt_of_le (show (240 : Nat) < 2 ^ 8 by norm_num)
        (Nat.pow_le_pow_right (by norm_num) (by omega))
    have e2 : (15 : Nat) < 2 ^ j :=
      lt_of_lt_of_le (show (15 : Nat) < 2 ^ 4 by norm_num)
        (Nat.pow_le_pow_right (by norm_num) hj)
    rw [Nat.testBit_lt_two_pow e1, Nat.testBit_lt_two_pow e2]

/-- The three-bit flags value is below 8. -/
theorem flags_lt_eight (p : IPv4Packet) : p.flags < 8 := by
  unfold IPv4Packet.flags
  rw [Nat.shiftRight_eq_div_pow]
  have h : byteAt p.data 6 &&& 224 ≤ 224 := Nat.and_le_right
  have h2 := Nat.div_le_div_right (c := 2 ^ 5) h
  norm_num at h2
  omega

/-- Inversion of a successful IPv4 parse: the packet wraps the buffer,
which is at least 20 bytes with version nibble 4 and IHL at least 5. -/
theorem ipv4_parse_ok_inv (data : List Nat) (p : IPv4Packet)
    (h : IPv4Packet.parse data = .ok p) :
    p.data = data ∧ 20 ≤ data.length ∧
      (byteAt data 0 &&& 0xF0) >>> 4 = 4 ∧ 5 ≤ byteAt data 0 &&& 0x0F := by
  simp only [IPv4Packet.parse] at h
  split_ifs at h with h1 h2 h3 <;>
    first
      | exact Except.noConfusion h
      | (cases h
         exact ⟨rfl, Nat.le_of_not_lt h1, not_not.mp h2, Nat.le_of_not_lt h3⟩)

/-- Inversion of a successful IPv6 parse: the packet wraps the buffer,
which is at least 40 bytes with version nibble 6. -/
theorem ipv6_parse_ok_inv (data : List Nat) (p : IPv6Packet)
    (h : IPv6Packet.parse data = .ok p) :
    p.data = data ∧ 40 ≤ data.length ∧
      (byteAt data 0 &&& 0xF0) >>> 4 = 6 := by
  simp only [IPv6Packet.parse] at h
  split_ifs at h with h1 h2 <;>
    first
      | exact Except.noConfusion h
      | (cases h
         exact ⟨rfl, Nat.le_of_not_lt h1, not_not.mp h2⟩)

/-- Inversion of a successful Ethernet parse: the frame wraps the buffer,
which is at least 14 bytes. -/
theorem eth_parse_ok_inv (data : List Nat) (f : EthernetFrame)
    (h : EthernetFrame.parse data = .ok f) :
    f.data = data ∧ 14 ≤ data.length := by
  simp only [EthernetFrame.parse] at h
  split_ifs at h with h1 <;>
    first
      | exact Except.noConfusion h
      | (cases h
         exact ⟨rfl, Nat.le_of_not_lt h1⟩)

/-- C3: `IPv4Packet::parse` fails TooShort below 20 bytes, InvalidVersion
when the version nibble of byte 0 is not 4, InvalidHeaderLength when the
IHL nibble is below 5, and succeeds otherwise; first byte 0x45 at length
20 succeeds with `header_length` 20, 0x44 fails InvalidHeaderLength, 0x55
fails InvalidVersion, and an IHL nibble of 15 on a 20-byte buffer still
succeeds (no check that the declared header length fits the buffer). -/
theorem C3_ipv4_parse_contract (data : List Nat) :
    (data.length < 20 → IPv4Packet.parse data = .error .TooShort) ∧
    (20 ≤ data.length → (byteAt data 0 &&& 0xF0) >>> 4 ≠ 4 →
      IPv4Packet.parse data = .error .InvalidVersion) ∧
    (20 ≤ data.length → (byteAt data 0 &&& 0xF0) >>> 4 = 4 →
      byteAt data 0 &&& 0x0F < 5 →
      IPv4Packet.parse data = .error .InvalidHeaderLength) ∧
    (20 ≤ data.length → (byteAt data 0 &&& 0xF0) >>> 4 = 4 →
      5 ≤ byteAt data 0 &&& 0x0F →
      IPv4Packet.parse data = .ok ⟨data⟩) ∧
    IPv4Packet.parse ipv4Min = .ok ⟨ipv4Min⟩ ∧
    (IPv4Packet.mk ipv4Min).header_length = 20 ∧
    IPv4Packet.parse ipv4Ihl4 = .error .InvalidHeaderLength ∧
    IPv4Packet.parse ipv4Ver5 = .error .InvalidVersion ∧
    (IPv4Packet.parse ipv4Ihl15 = .ok ⟨ipv4Ihl15⟩ ∧
      (IPv4Packet.mk ipv4Ihl15).header_length = 60 ∧ ipv4Ihl15.length = 20) := by
  refine ⟨?_, ?_, ?_, ?_, by decide, by decide, by decide, by decide, by decide⟩
  · intro h
    simp [IPv4Packet.parse, h]
  · intro h20 hv
    have h1 : ¬ data.length < 20 := by omega
    simp [IPv4Packet.parse, h1, hv]
  · intro h20 hv hihl
    have h1 : ¬ data.length < 20 := by omega
    simp [IPv4Packet.parse, h1, hv, hihl]
  · intro h20 hv hihl
    have h1 : ¬ data.length < 20 := by omega
    have h3 : ¬ byteAt data 0 &&& 0x0F < 5 := by omega
    simp [IPv4Packet.parse, h1, hv, h3]

/-- Instantiation of C3's contract at concrete buffers, discharging each
branch's hypotheses. -/
theorem C3_ipv4_parse_contract_inst :
    IPv4Packet.parse [] = .error .TooShort ∧
    IPv4Packet.parse ipv4Ver5 = .error .InvalidVersion ∧
    IPv4Packet.parse ipv4Ihl4 = .error .InvalidHeaderLength ∧
    IPv4Packet.parse ipv4Min = .ok ⟨ipv4Min⟩ :=
  ⟨(C3_ipv4_parse_contract []).1 (by decide),
    (C3_ipv4_parse_contract ipv4Ver5).2.1 (by decide) (by decide),
    (C3_ipv4_parse_contract ipv4Ihl4).2.2.1 (by decide) (by decide)
      (by decide),
    (C3_ipv4_parse_contract ipv4Min).2.2.2.1 (by decide) (by decide)
      (by decide)⟩

/-- C6: `IPv6Packet::parse` fails TooShort below 40 bytes, InvalidVersion
when the version nibble of byte 0 is not 6, and succeeds otherwise; first
byte 0x60 at length 40 succeeds with `version` 6, and the same bytes cut
to 39 fail TooShort. -/
theorem C6_ipv6_parse_contract (data : List Nat) :
    (data.length < 40 → IPv6Packet.parse data = .error .TooShort) ∧
    (40 ≤ data.length → (byteAt data 0 &&& 0xF0) >>> 4 ≠ 6 →
      IPv6Packet.parse data = .error .InvalidVersion) ∧
    (40 ≤ data.length → (byteAt data 0 &&& 0xF0) >>> 4 = 6 →
      IPv6Packet.parse data = .ok ⟨data⟩) ∧
    IPv6Packet.parse ipv6Min = .ok ⟨ipv6Min⟩ ∧
    (IPv6Packet.mk ipv6Min).version = 6 ∧
    IPv6Packet.parse (ipv6Min.take 39) = .error .TooShort := by
  refine ⟨?_, ?_, ?_, by decide, by decide, by decide⟩
  · intro h
    simp [IPv6Packet.parse, h]
  · intro h40 hv
    have h1 : ¬ data.length < 40 := by omega
    simp [IPv6Packet.parse, h1, hv]
  · intro h40 hv
    have h1 : ¬ data.length < 40 := by omega
    simp [IPv6Packet.parse, h1, hv]

/-- Instantiation of C6's contract at concrete buffers, discharging each
branch's hypotheses. -/
theorem C6_ipv6_parse_contract_inst :
    IPv6Packet.parse (ipv6Min.take 39) = .error .TooShort ∧
    IPv6Packet.parse (0x45 :: List.replicate 39 0) = .error .InvalidVersion ∧
    IPv6Packet.parse ipv6Min = .ok ⟨ipv6Min⟩ :=
  ⟨(C6_ipv6_parse_contract (ipv6Min.take 39)).1 (by decide),
    (C6_ipv6_parse_contract (0x45 :: List.replicate 39 0)).2.1 (by decide)
      (by decide),
    (C6_ipv6_parse_contract ipv6Min).2.2.1 (by decide) (by decide)⟩

/-- C10: `EthernetFrame::parse` only ever returns a frame or TooShort;
the InvalidFormat error variant is unreachable through parse. -/
theorem C10_invalid_format_unreachable (data : List Nat) :
    (EthernetFrame.parse data = .ok ⟨data⟩ ∨
      EthernetFrame.parse data = .error .TooShort) ∧
    ∀ e : EthernetError, EthernetFrame.parse data = .error e →
      e = .TooShort := by
  constructor
  · by_cases h : data.length < 14
    · right
      simp [EthernetFrame.parse, h]
    · left
      simp [EthernetFrame.parse, h]
  · intro e he
    simp only [EthernetFrame.parse] at he
    split_ifs at he with h1
    all_goals first
      | (cases he; rfl)
      | exact Except.noConfusion he

/-- Instantiation of C10 at a concrete short buffer, discharging the
hypothesis of its second conjunct. -/
theorem C10_invalid_format_unreachable_inst :
    (EthernetError.TooShort = EthernetError.TooShort) ∧
    (EthernetFrame.parse [0] = .error .TooShort) :=
  ⟨(C10_invalid_format_unreachable [0]).2 .TooShort (by decide), by decide⟩

/-- C4: `EthernetFrame::parse` fails TooShort below 14 bytes and succeeds
on every buffer of 14 bytes or more; a parsed frame whose EtherType is
neither 0x0800 nor 0x86DD yields exactly the three base Ethernet control
fields. -/
theorem C4_eth_parse_contract (data : List Nat) :
    (data.length < 14 → EthernetFrame.parse data = .error .TooShort) ∧
    (14 ≤ data.length → EthernetFrame.parse data = .ok ⟨data⟩) ∧
    (∀ f : EthernetFrame, EthernetFrame.parse data = .ok f →
      f.ether_type ≠ 0x0800 → f.ether_type ≠ 0x86DD →
      f.get_frame_control.control_fields = f.baseControlFields ∧
      f.baseControlFields.length = 3) := by
  refine ⟨?_, ?_, ?_⟩
  · intro h
    simp [EthernetFrame.parse, h]
  · intro h
    have h1 : ¬ data.length < 14 := by omega
    simp [EthernetFrame.parse, h1]
  · intro f hf h8 h6
    refine ⟨?_, rfl⟩
    unfold EthernetFrame.get_frame_control
    dsimp only
    split
    · exact absurd (by assumption) h8
    · exact absurd (by assumption) h6
    · simp

/-- Instantiation of C4's contract at concrete buffers, discharging each
branch's hypotheses. -/
theorem C4_eth_parse_contract_inst :
    EthernetFrame.parse [1, 2, 3] = .error .TooShort ∧
    EthernetFrame.parse ethArpHdr = .ok ⟨ethArpHdr⟩ ∧
    (EthernetFrame.mk ethArpHdr).get_frame_control.control_fields =
      (EthernetFrame.mk ethArpHdr).baseControlFields :=
  ⟨(C4_eth_parse_contract [1, 2, 3]).1 (by decide),
    (C4_eth_parse_contract ethArpHdr).2.1 (by decide),
    ((C4_eth_parse_contract ethArpHdr).2.2 ⟨ethArpHdr⟩ (by decide)
      (by decide) (by decide)).1⟩

/-- C5: when the EtherType selects IPv4 (resp. IPv6) but the inner parse
of the payload fails, `get_frame_control` returns exactly the three
Ethernet fields; the inner error is never propagated. -/
theorem C5_inner_failure_omitted (data : List Nat) (f : EthernetFrame)
    (hf : EthernetFrame.parse data = .ok f) :
    f.baseControlFields.length = 3 ∧
    (f.ether_type = 0x0800 →
      ∀ e : IPv4Error, IPv4Packet.parse f.payload = .error e →
        f.get_frame_control.control_fields = f.baseControlFields) ∧
    (f.ether_type = 0x86DD →
      ∀ e : IPv6Error, IPv6Packet.parse f.payload = .error e →
        f.get_frame_control.control_fields = f.baseControlFields) := by
  refine ⟨rfl, ?_, ?_⟩
  · intro h e hp
    unfold EthernetFrame.get_frame_control
    dsimp only
    rw [h, hp]
    simp
  · intro h e hp
    unfold EthernetFrame.get_frame_control
    dsimp only
    rw [h, hp]
    simp

/-- Instantiation of C5 at concrete 14-byte frames with empty payloads:
the inner IPv4 (resp. IPv6) parse fails TooShort and the output is the
three Ethernet fields. -/
theorem C5_inner_failure_omitted_inst :
    (EthernetFrame.mk ethIpv4Hdr).get_frame_control.control_fields =
      (EthernetFrame.mk ethIpv4Hdr).baseControlFields ∧
    (EthernetFrame.mk ethIpv6Hdr).get_frame_control.control_fields =
      (EthernetFrame.mk ethIpv6Hdr).baseControlFields :=
  ⟨(C5_inner_failure_omitted ethIpv4Hdr ⟨ethIpv4Hdr⟩ (by decide)).2.1
      (by decide) .TooShort (by decide),
    (C5_inner_failure_omitted ethIpv6Hdr ⟨ethIpv6Hdr⟩ (by decide)).2.2
      (by decide) .TooShort (by decide)⟩

/-- C1 counterexample: a successfully parsed minimal IPv4 packet yields
13 control fields, not the 12 the claim states. -/
theorem C1_twelve_fields_refuted :
    (IPv4Packet.parse ipv4Min).map
        (fun p => p.get_control_fields.length) = .ok 13 ∧
    (13 : Nat) ≠ 12 := by
  constructor
  · rfl
  · decide

/-- C1 as amended: every successfully parsed IPv4 packet yields exactly
thirteen control fields, in the fixed order IP Version, Header Length,
DSCP, ECN, Total Length, Identification, Flags, Fragment Offset, TTL,
Protocol, Checksum, Source IP, Destination IP. -/
theorem C1_ipv4_thirteen_fields (data : List Nat) (p : IPv4Packet)
    (h : IPv4Packet.parse data = .ok p) :
    p.get_control_fields.length = 13 ∧
    p.get_control_fields.map ControlField.name =
      ["IP Version", "Header Length", "DSCP", "ECN", "Total Length",
        "Identification", "Flags", "Fragment Offset", "TTL", "Protocol",
        "Checksum", "Source IP", "Destination IP"] :=
  ⟨rfl, rfl⟩

/-- Instantiation of C1's amended statement at the minimal IPv4 header. -/
theorem C1_ipv4_thirteen_fields_inst :
    (IPv4Packet.mk ipv4Min).get_control_fields.length = 13 ∧
    (IPv4Packet.mk ipv4Min).get_control_fields.map ControlField.name =
      ["IP Version", "Header Length", "DSCP", "ECN", "Total Length",
        "Identification", "Flags", "Fragment Offset", "TTL", "Protocol",
        "Checksum", "Source IP", "Destination IP"] :=
  C1_ipv4_thirteen_fields ipv4Min ⟨ipv4Min⟩ (by decide)

/-- C2 counterexample: an Ethernet header with EtherType 0x0800 followed
by a minimal IPv4 header decodes to 16 control fields, not the 15 the
claim states. -/
theorem C2_fifteen_fields_refuted :
    (EthernetFrame.parse ethIpv4Buf).map
        (fun f => f.get_frame_control.control_fields.length) = .ok 16 ∧
    (16 : Nat) ≠ 15 := by
  constructor
  · rfl
  · decide

/-- C2 as amended: for every buffer made of a 14-byte Ethernet header
whose EtherType bytes are 0x08, 0x00 followed by a 20-byte IPv4 header
whose first byte is 0x45, the control fields are the 3 Ethernet fields
followed by the 13 IPv4 fields of the payload, 16 fields in total, in
that concatenated order. -/
theorem C2_eth_ipv4_concat (pre ip : List Nat) (hpre : pre.length = 14)
    (h12 : byteAt pre 12 = 0x08) (h13 : byteAt pre 13 = 0x00)
    (hip : ip.length = 20) (h0 : byteAt ip 0 = 0x45)
    (f : EthernetFrame) (hf : EthernetFrame.parse (pre ++ ip) = .ok f) :
    f.get_frame_control.control_fields =
      f.baseControlFields ++ (IPv4Packet.mk ip).get_control_fields ∧
    f.baseControlFields.length = 3 ∧
    (IPv4Packet.mk ip).get_control_fields.length = 13 ∧
    f.get_frame_control.control_fields.length = 16 := by
  obtain ⟨hdata, -⟩ := eth_parse_ok_inv _ _ hf
  have hety : f.ether_type = 0x0800 := by
    unfold EthernetFrame.ether_type
    rw [hdata, byteAt_append_left _ _ _ (by omega),
      byteAt_append_left _ _ _ (by omega), h12, h13]
    decide
  have hpay : f.payload = ip := by
    unfold EthernetFrame.payload
    rw [hdata, ← hpre, List.drop_left]
  have hparse : IPv4Packet.parse ip = .ok ⟨ip⟩ := by
    have h1 : ¬ ip.length < 20 := by omega
    have hv : (byteAt ip 0 &&& 0xF0) >>> 4 = 4 := by
      rw [h0]
      decide
    have hihl : ¬ byteAt ip 0 &&& 0x0F < 5 := by
      rw [h0]
      decide
    simp [IPv4Packet.parse, h1, hv, hihl]
  have hmain : f.get_frame_control.control_fields =
      f.baseControlFields ++ (IPv4Packet.mk ip).get_control_fields := by
    unfold EthernetFrame.get_frame_control
    dsimp only
    rw [hety, hpay, hparse]
  refine ⟨hmain, rfl, rfl, ?_⟩
  rw [hmain]
  simp [EthernetFrame.baseControlFields, IPv4Packet.get_control_fields]

/-- Instantiation of C2's amended statement at a concrete frame. -/
theorem C2_eth_ipv4_concat_inst :
    (EthernetFrame.mk ethIpv4Buf).get_frame_control.control_fields =
      (EthernetFrame.mk ethIpv4Buf).baseControlFields ++
        (IPv4Packet.mk ipv4Min).get_control_fields ∧
    (EthernetFrame.mk ethIpv4Buf).get_frame_control.control_fields.length =
      16 := by
  have h := C2_eth_ipv4_concat ethIpv4Hdr ipv4Min (by decide) (by decide)
    (by decide) (by decide) (by decide) ⟨ethIpv4Buf⟩ (by decide)
  exact ⟨h.1, h.2.2.2⟩

/-- C7: every successfully parsed IPv6 packet yields exactly eight
control fields in fixed order, with the traffic class concatenating the
low nibble of byte 0 with the top nibble of byte 1 and the flow label
formed from the low nibble of byte 1 and bytes 2-3. -/
theorem C7_ipv6_fields (data : List Nat) (p : IPv6Packet)
    (h : IPv6Packet.parse data = .ok p) (hb : ∀ b ∈ data, b < 256) :
    p.get_control_fields.length = 8 ∧
    p.get_control_fields.map ControlField.name =
      ["IP Version", "Traffic Class", "Flow Label", "Payload Length",
        "Next Header", "Hop Limit", "Source IP", "Destination IP"] ∧
    p.traffic_class = byteAt data 0 % 16 * 16 + byteAt data 1 / 16 ∧
    p.flow_label =
      byteAt data 1 % 16 * 65536 + byteAt data 2 * 256 + byteAt data 3 := by
  obtain ⟨hdata, hlen, hver⟩ := ipv6_parse_ok_inv data p h
  have hb1 : byteAt data 1 < 256 := byteAt_lt_256 data hb 1
  have hb2 : byteAt data 2 < 256 := byteAt_lt_256 data hb 2
  have hb3 : byteAt data 3 < 256 := byteAt_lt_256 data hb 3
  refine ⟨rfl, rfl, ?_, ?_⟩
  · unfold IPv6Packet.traffic_class
    rw [hdata, and_240_shiftRight, shiftRight_four, and_fifteen,
      and_fifteen]
    have hm : byteAt data 1 / 16 % 16 = byteAt data 1 / 16 :=
      Nat.mod_eq_of_lt (by omega)
    rw [hm, shiftLeft4_lor _ _ (by omega)]
  · unfold IPv6Packet.flow_label
    rw [hdata, Nat.lor_assoc, shiftLeft8_lor _ _ hb3,
      shiftLeft16_lor _ _ (by omega), and_fifteen]
    omega

/-- Instantiation of C7 at a concrete IPv6 header with non-trivial
nibbles. -/
theorem C7_ipv6_fields_inst :
    (IPv6Packet.mk ipv6Nib).traffic_class =
      byteAt ipv6Nib 0 % 16 * 16 + byteAt ipv6Nib 1 / 16 ∧
    (IPv6Packet.mk ipv6Nib).flow_label =
      byteAt ipv6Nib 1 % 16 * 65536 + byteAt ipv6Nib 2 * 256 +
        byteAt ipv6Nib 3 ∧
    (IPv6Packet.mk ipv6Nib).get_control_fields.length = 8 := by
  have h := C7_ipv6_fields ipv6Nib ⟨ipv6Nib⟩ (by decide) (by decide)
  exact ⟨h.2.2.1, h.2.2.2, h.1⟩

/-- C8 counterexample: on a parsed packet whose flags value is 3 (bits 0
and 1 both set), flag bit 1 is set yet the description is not exactly
the Don\x27t Fragment text, refuting the claim read over every value
with bit 1 set. -/
theorem C8_dont_fragment_refuted :
    IPv4Packet.parse ipv4Flags3 = .ok ⟨ipv4Flags3⟩ ∧
    (IPv4Packet.mk ipv4Flags3).flags &&& 0x02 ≠ 0 ∧
    (IPv4Packet.mk ipv4Flags3).get_flags_description ≠
      "Don\x27t Fragment" ∧
    (IPv4Packet.mk ipv4Flags3).get_flags_description =
      "More Fragments, Don\x27t Fragment" := by
  refine ⟨by decide, by decide, by decide, by decide⟩

/-- C8 as amended: the description is built by testing bits 0, 1, 2 of
the three-bit flags value, joined with commas and defaulting to None:
the full value table is given, value 0 gives exactly None, and a value
whose only set bit is bit 1 (value 2) gives exactly the Don\x27t
Fragment text. -/
theorem C8_flags_description (data : List Nat) (p : IPv4Packet)
    (h : IPv4Packet.parse data = .ok p) :
    p.flags < 8 ∧
    p.get_flags_description =
      (match p.flags with
        | 0 => "None"
        | 1 => "More Fragments"
        | 2 => "Don\x27t Fragment"
        | 3 => "More Fragments, Don\x27t Fragment"
        | 4 => "Reserved"
        | 5 => "More Fragments, Reserved"
        | 6 => "Don\x27t Fragment, Reserved"
        | _ => "More Fragments, Don\x27t Fragment, Reserved") ∧
    (p.flags = 0 → p.get_flags_description = "None") ∧
    (p.flags = 2 → p.get_flags_description = "Don\x27t Fragment") := by
  have hlt : p.flags < 8 := flags_lt_eight p
  have table : ∀ n, n < 8 → flagsDescription n =
      (match n with
        | 0 => "None"
        | 1 => "More Fragments"
        | 2 => "Don\x27t Fragment"
        | 3 => "More Fragments, Don\x27t Fragment"
        | 4 => "Reserved"
        | 5 => "More Fragments, Reserved"
        | 6 => "Don\x27t Fragment, Reserved"
        | _ => "More Fragments, Don\x27t Fragment, Reserved") := by
    decide
  refine ⟨hlt, ?_, ?_, ?_⟩
  · simp only [IPv4Packet.get_flags_description]
    exact table p.flags hlt
  · intro h0
    simp only [IPv4Packet.get_flags_description, h0]
    decide
  · intro h2
    simp only [IPv4Packet.get_flags_description, h2]
    decide

/-- Instantiation of C8's amended statement: flags value 0 describes as
None, flags value 2 as exactly the Don\x27t Fragment text. -/
theorem C8_flags_description_inst :
    (IPv4Packet.mk ipv4Min).get_flags_description = "None" ∧
    (IPv4Packet.mk ipv4Flags2).get_flags_description =
      "Don\x27t Fragment" :=
  ⟨(C8_flags_description ipv4Min ⟨ipv4Min⟩ (by decide)).2.2.1 (by decide),
    (C8_flags_description ipv4Flags2 ⟨ipv4Flags2⟩ (by decide)).2.2.2
      (by decide)⟩

/-- Buffers agreeing on their first 20 bytes yield identical IPv4 control
fields: the IPv4 accessors read only offsets 0-19. -/
theorem ipv4_fields_take_congr (d d' : List Nat)
    (h : d.take 20 = d'.take 20) :
    (IPv4Packet.mk d).get_control_fields =
      (IPv4Packet.mk d').get_control_fields := by
  have hb : ∀ i, i < 20 → byteAt d i = byteAt d' i :=
    fun i hi => byteAt_congr_of_take d d' 20 i h hi
  simp only [IPv4Packet.get_control_fields, IPv4Packet.version,
    IPv4Packet.header_length, IPv4Packet.dscp, IPv4Packet.ecn,
    IPv4Packet.total_length, IPv4Packet.identification, IPv4Packet.flags,
    IPv4Packet.fragment_offset, IPv4Packet.ttl, IPv4Packet.protocol,
    IPv4Packet.checksum, IPv4Packet.source_ip, IPv4Packet.destination_ip,
    IPv4Packet.get_protocol_name, IPv4Packet.get_flags_description]
  rw [hb 0 (by norm_num), hb 1 (by norm_num), hb 2 (by norm_num),
    hb 3 (by norm_num), hb 4 (by norm_num), hb 5 (by norm_num),
    hb 6 (by norm_num), hb 7 (by norm_num), hb 8 (by norm_num),
    hb 9 (by norm_num), hb 10 (by norm_num), hb 11 (by norm_num),
    hb 12 (by norm_num), hb 13 (by norm_num), hb 14 (by norm_num),
    hb 15 (by norm_num), hb 16 (by norm_num), hb 17 (by norm_num),
    hb 18 (by norm_num), hb 19 (by norm_num)]

/-- Buffers agreeing on their first 14 bytes yield identical base
Ethernet control fields: the Ethernet header accessors read only offsets
0-13. -/
theorem eth_base_take_congr (d d' : List Nat)
    (h : d.take 14 = d'.take 14) :
    (EthernetFrame.mk d).baseControlFields =
      (EthernetFrame.mk d').baseControlFields := by
  have hb12 := byteAt_congr_of_take d d' 14 12 h (by norm_num)
  have hb13 := byteAt_congr_of_take d d' 14 13 h (by norm_num)
  have hsrc : (d.drop 6).take 6 = (d'.drop 6).take 6 := by
    rw [← take_drop_window d 6 6 14 (by norm_num),
      ← take_drop_window d' 6 6 14 (by norm_num), h]
  have hdst : d.take 6 = d'.take 6 := by
    have h6 : (d.take 14).take 6 = (d'.take 14).take 6 := by
      rw [h]
    simpa [List.take_take] using h6
  simp only [EthernetFrame.baseControlFields, EthernetFrame.src_mac,
    EthernetFrame.dest_mac, EthernetFrame.ether_type]
  rw [hb12, hb13, hsrc, hdst]

/-- Buffers agreeing on their first 40 bytes yield identical IPv6 control
fields: the IPv6 accessors read only offsets 0-39. -/
theorem ipv6_fields_take_congr (d d' : List Nat)
    (h : d.take 40 = d'.take 40) :
    (IPv6Packet.mk d).get_control_fields =
      (IPv6Packet.mk d').get_control_fields := by
  have hb : ∀ i, i < 40 → byteAt d i = byteAt d' i :=
    fun i hi => byteAt_congr_of_take d d' 40 i h hi
  have hsrc : (d.drop 8).take 16 = (d'.drop 8).take 16 := by
    rw [← take_drop_window d 8 16 40 (by norm_num),
      ← take_drop_window d' 8 16 40 (by norm_num), h]
  have hdst : (d.drop 24).take 16 = (d'.drop 24).take 16 := by
    rw [← take_drop_window d 24 16 40 (by norm_num),
      ← take_drop_window d' 24 16 40 (by norm_num), h]
  simp only [IPv6Packet.get_control_fields, IPv6Packet.version,
    IPv6Packet.traffic_class, IPv6Packet.flow_label,
    IPv6Packet.payload_length, IPv6Packet.next_header,
    IPv6Packet.hop_limit, IPv6Packet.source_ip, IPv6Packet.destination_ip,
    IPv6Packet.get_next_header_name]
  rw [hb 0 (by norm_num), hb 1 (by norm_num), hb 2 (by norm_num),
    hb 3 (by norm_num), hb 4 (by norm_num), hb 5 (by norm_num),
    hb 6 (by norm_num), hb 7 (by norm_num), hsrc, hdst]

/-- C9: a parse success certifies the buffer meets the protocol's minimum
header length, and each decoder's field extraction depends only on that
in-bounds prefix (IPv4: offsets 0-19, even when the IHL nibble declares a
longer header; Ethernet header fields: offsets 0-13; IPv6: offsets
0-39). -/
theorem C9_accessor_bounds (data data' : List Nat) :
    (∀ p : IPv4Packet, IPv4Packet.parse data = .ok p →
      p.data = data ∧ 20 ≤ data.length) ∧
    (data.take 20 = data'.take 20 →
      (IPv4Packet.mk data).get_control_fields =
        (IPv4Packet.mk data').get_control_fields) ∧
    (∀ f : EthernetFrame, EthernetFrame.parse data = .ok f →
      f.data = data ∧ 14 ≤ data.length) ∧
    (data.take 14 = data'.take 14 →
      (EthernetFrame.mk data).baseControlFields =
        (EthernetFrame.mk data').baseControlFields) ∧
    (∀ q : IPv6Packet, IPv6Packet.parse data = .ok q →
      q.data = data ∧ 40 ≤ data.length) ∧
    (data.take 40 = data'.take 40 →
      (IPv6Packet.mk data).get_control_fields =
        (IPv6Packet.mk data').get_control_fields) := by
  refine ⟨?_, ipv4_fields_take_congr data data', ?_,
    eth_base_take_congr data data', ?_, ipv6_fields_take_congr data data'⟩
  · intro p hp
    have hinv := ipv4_parse_ok_inv data p hp
    exact ⟨hinv.1, hinv.2.1⟩
  · intro f hf
    exact eth_parse_ok_inv data f hf
  · intro q hq
    have hinv := ipv6_parse_ok_inv data q hq
    exact ⟨hinv.1, hinv.2.1⟩

/-- Instantiation of C9: appending a byte beyond the in-bounds prefix
changes no decoded field, and parsed buffers meet the minimum lengths. -/
theorem C9_accessor_bounds_inst :
    (IPv4Packet.mk (ipv4Min ++ [7])).get_control_fields =
      (IPv4Packet.mk ipv4Min).get_control_fields ∧
    20 ≤ (ipv4Min ++ [7]).length ∧
    (IPv6Packet.mk (ipv6Min ++ [7])).get_control_fields =
      (IPv6Packet.mk ipv6Min).get_control_fields ∧
    40 ≤ (ipv6Min ++ [7]).length :=
  ⟨(C9_accessor_bounds (ipv4Min ++ [7]) ipv4Min).2.1 (by decide),
    ((C9_accessor_bounds (ipv4Min ++ [7]) ipv4Min).1 ⟨ipv4Min ++ [7]⟩
      (by decide)).2,
    (C9_accessor_bounds (ipv6Min ++ [7]) ipv6Min).2.2.2.2.2 (by decide),
    ((C9_accessor_bounds (ipv6Min ++ [7]) ipv6Min).2.2.2.2.1
      ⟨ipv6Min ++ [7]⟩ (by decide)).2⟩

end Sniffer
